import Mathlib

/-!
Verification of the page-layout core of pdf2docx (`pdf2docx/layout/Layout.py`)
against its natural-language specification.

The geometry is embedded over `ℚ` (the Python source computes with floats, but
every property checked here is order/arithmetic reasoning that is exact over the
rationals).  Collections (`Blocks`, `Rectangles`) are embedded as Lean lists of
the data the core reads from them; their internal algorithms (`clean`,
`from_dicts`, the table constructor) are external collaborators and appear only
as parameters or abstract snapshots, exactly as the core uses them.
-/

/-- A bounding box `(x0, y0, x1, y1)`, the only geometric data `Layout` reads
from a block or a rectangle shape. -/
structure Bbox where
  x0 : ℚ
  y0 : ℚ
  x1 : ℚ
  y1 : ℚ
deriving DecidableEq, Repr

/-- Modelled from the spec: the one-inch page-margin constant `ITP` is imported
by `Layout.py` from `common.utils`, which is not part of the analysed sources;
the spec fixes it as the one-inch equivalent, 72 point units
(`return (ITP, ) * 4  # 1 Inch = 72 pt`). -/
def ITP : ℚ := 72

/-- Modelled from the spec: the constant `DM` is imported by `Layout.py` from
`common.utils` (not part of the analysed sources); the code subtracts `DM*10.0`
as the right-margin tolerance and the spec describes it as a small fixed
tolerance of a few geometry units, with default 1. -/
def DM : ℚ := 1

/-- Minimum of a list of rationals, as Python's `min(...)` on a non-empty
iterable; the `[]` case is never reached where this is used (guarded by the
emptiness test in `page_margin`). -/
def listMin : List ℚ → ℚ
  | [] => 0
  | x :: xs => xs.foldl min x

/-- Maximum of a list of rationals, as Python's `max(...)` on a non-empty
iterable. -/
def listMax : List ℚ → ℚ
  | [] => 0
  | x :: xs => xs.foldl max x

/-- `Layout.page_margin` (Layout.py, lines 298-348), embedded on the data it
reads: the page width and height and the bounding boxes of the blocks and the
rectangle shapes.  Returns `(left, right, top, bottom)`. -/
def page_margin (width height : ℚ) (blocks rects : List Bbox) : ℚ × ℚ × ℚ × ℚ :=
  -- return normal page margin if no blocks exist
  if blocks.isEmpty && rects.isEmpty then (ITP, ITP, ITP, ITP)
  else
    -- consider both blocks and rects for page margin
    let list_bbox := blocks ++ rects
    -- left margin
    let left0 := listMin (list_bbox.map Bbox.x0)
    let left := max left0 0
    -- right margin
    let x_max := listMax (list_bbox.map Bbox.x1)
    let right0 := width - x_max - DM * 10
    let right1 := min right0 left
    let right := max right1 0
    -- top margin
    let top0 := listMin (list_bbox.map Bbox.y0)
    let top := max top0 0
    -- bottom margin
    let bottom0 := height - listMax (list_bbox.map Bbox.y1)
    let bottom := max bottom0 0
    -- reduce calculated top/bottom margin to leave some free space
    let top' := top * (1/2)
    let bottom' := bottom * (1/2)
    -- use normal margin if calculated margin is large enough
    (min ITP left, min ITP right, min ITP top', min ITP bottom')

/-- The margin-inference reference definition, written from the spec's words
(§4.2): default on empty input; `left = max(0, min x0)`;
`right = min(left, width - xMax - tolerance)` then clamped to `≥ 0`;
`top = max(0, min y0)`; `bottom = max(0, height - max y1)`; top and bottom
halved; every component capped at the one-inch value, in that order. -/
def page_margin_spec (width height : ℚ) (blocks rects : List Bbox) : ℚ × ℚ × ℚ × ℚ :=
  if blocks.isEmpty && rects.isEmpty then (ITP, ITP, ITP, ITP)
  else
    let boxes := blocks ++ rects
    let left := max 0 (listMin (boxes.map Bbox.x0))
    let xMax := listMax (boxes.map Bbox.x1)
    let right := max 0 (min left (width - xMax - DM * 10))
    let top := max 0 (listMin (boxes.map Bbox.y0))
    let bottom := max 0 (height - listMax (boxes.map Bbox.y1))
    let top' := top * (1/2)
    let bottom' := bottom * (1/2)
    (min left ITP, min right ITP, min top' ITP, min bottom' ITP)

/-- A block's type-specific payload: pdf2docx distinguishes text blocks and
table blocks; for a table block only the fields `make_page` reads are kept:
`num_rows`, `num_cols` and `before_space`. -/
inductive BlockData where
  | text : BlockData
  | table (num_rows num_cols : ℕ) (before_space : ℚ) : BlockData
deriving DecidableEq, Repr

/-- A content block: its bounding box plus its payload. -/
structure Block where
  bbox : Bbox
  data : BlockData
deriving DecidableEq, Repr

/-- `Block.is_text_block`: the block is a text block. -/
def Block.is_text_block (b : Block) : Bool :=
  match b.data with
  | .text => true
  | .table _ _ _ => false

/-- `Block.is_table_block`: the block is a table block. -/
def Block.is_table_block (b : Block) : Bool :=
  match b.data with
  | .text => false
  | .table _ _ _ => true

/-- The layout state: page dimensions, block collection, rectangle-shape
collection, and the margin (`self._margin`), which is `none` until computed. -/
structure Layout where
  width : ℚ
  height : ℚ
  blocks : List Block
  rects : List Bbox
  margin : Option (ℚ × ℚ × ℚ × ℚ)
deriving DecidableEq, Repr

/-- The raw per-page dictionary, restricted to the keys `Layout.__init__`
touches (`width`, `height`, `blocks`, each optional with the code's `get`
defaults) plus the rectangle entries that may be present in the raw dictionary
but are never read by the constructor. -/
structure RawPage where
  width : Option ℚ
  height : Option ℚ
  blocks : Option (List Block)
  rects : List Bbox

/-- `Layout.__init__` (Layout.py, lines 49-63).  `Blocks().from_dicts` is an
external collaborator converting raw block dictionaries into typed blocks; it
is modelled as yielding the already-typed block list of the raw page.  The
rectangle collection is initialized empty (`self.rects = Rectangles()`): the
raw dictionary's rectangle entries are never read.  The margin starts unset
(`self._margin = None`). -/
def Layout.init (raw : RawPage) : Layout :=
  { width := raw.width.getD 0
    height := raw.height.getD 0
    blocks := raw.blocks.getD []
    rects := []
    margin := none }

/-- `Layout.bbox_raw` (Layout.py, lines 70-76). -/
def Layout.bbox_raw (L : Layout) : ℚ × ℚ × ℚ × ℚ :=
  match L.margin with
  | none => (0, 0, 0, 0)
  | some (left, right, top, bottom) => (left, top, L.width - right, L.height - bottom)

/-- A value of the snapshot mapping produced by `Layout.store`; the `blocks`
and `rects` collection snapshots (`Blocks.store`, `Rectangles.store`) are
external collaborators, modelled as the collections themselves. -/
inductive StoreValue where
  | num (q : ℚ)
  | marginVal (m : Option (ℚ × ℚ × ℚ × ℚ))
  | blockList (bs : List Block)
  | rectList (rs : List Bbox)
deriving DecidableEq, Repr

/-- `Layout.store` (Layout.py, lines 79-86): the snapshot mapping, as an
association list in the order the keys are written in the source. -/
def Layout.store (L : Layout) : List (String × StoreValue) :=
  [("width", StoreValue.num L.width),
   ("height", StoreValue.num L.height),
   ("margin", StoreValue.marginVal L.margin),
   ("blocks", StoreValue.blockList L.blocks),
   ("rects", StoreValue.rectList L.rects)]

/-- `Layout.clean` (Layout.py, lines 254-264), parameterized by the external
collaborators `Blocks.clean` and `Rectangles.clean` (each takes the page bbox,
mutates its collection and returns the "changed" flag; modelled as returning
the new collection together with that flag).  After cleaning, the margin is
recomputed with `page_margin` from the cleaned state. -/
def Layout.clean (cleanBlocks : Bbox → List Block → List Block × Bool)
    (cleanRects : Bbox → List Bbox → List Bbox × Bool) (L : Layout) :
    Layout × Bool :=
  let page_bbox : Bbox := ⟨0, 0, L.width, L.height⟩
  let bs := (cleanBlocks page_bbox L.blocks).1
  let clean_blocks := (cleanBlocks page_bbox L.blocks).2
  let rs := (cleanRects page_bbox L.rects).1
  let clean_rects := (cleanRects page_bbox L.rects).2
  ({ width := L.width, height := L.height, blocks := bs, rects := rs,
     margin := some (page_margin L.width L.height (bs.map Block.bbox) rs) },
   clean_blocks || clean_rects)

/-- `Layout.parse_implicit_tables` (Layout.py, lines 274-289), parameterized by
the external `TablesConstructor.implicit_tables` (which receives the horizontal
bounds and returns the produced tables).  The unpacking
`left, right, *_ = self.margin` raises a `TypeError` when the margin is still
`None`; the raise is modelled as an `Except.error`. -/
def Layout.parse_implicit_tables (implicit_tables : ℚ → ℚ → List Block)
    (L : Layout) : Except String Bool :=
  match L.margin with
  | none => Except.error "cannot unpack non-iterable NoneType object"
  | some (left, right, _, _) =>
      let X0 := left
      let X1 := L.width - right
      Except.ok (!(implicit_tables X0 X1).isEmpty)

/-- Python's built-in `round` to the nearest integer with ties to even
(banker's rounding), on an exact rational value, computed on the numerator and
denominator.  `make_page` applies it through `round(x, 1)`; the binary-float
tie behaviour of CPython does not arise at any input used below. -/
def roundHalfEven (q : ℚ) : ℤ :=
  let n : ℤ := q.num
  let d : ℤ := (q.den : ℤ)
  let f : ℤ := Int.fdiv n d
  let r : ℤ := n - f * d
  if 2 * r < d then f
  else if d < 2 * r then f + 1
  else if f % 2 = 0 then f else f + 1

/-- Python's `round(x, 1)`: round `10 * x` to the nearest integer (ties to
even) and divide by 10. -/
def round1 (q : ℚ) : ℚ := ((roundHalfEven (q * 10) : ℤ) : ℚ) / 10

/-- One structural element emitted to the document sink by `make_page`: a
content paragraph (for a text block), a filler paragraph carrying its
`space_before`, `space_after` and `line_spacing` point values, or a table
sized `rows × cols`. -/
inductive DocElement where
  | contentParagraph : DocElement
  | fillerParagraph (space_before space_after line_spacing : ℚ) : DocElement
  | table (rows cols : ℕ) : DocElement
deriving DecidableEq, Repr

/-- The document elements `make_page` emits for one block (Layout.py, lines
216-242): a text block yields one paragraph; a table block yields an optional
leading filler paragraph — emitted when `block.before_space` is truthy, i.e.
nonzero — with `space_before = max(round(before_space/2, 1), 0)`,
`space_after = 0` and `line_spacing = round(before_space/2, 1)`, followed by
the table element sized `num_rows × num_cols`. -/
def emit_block (b : Block) : List DocElement :=
  match b.data with
  | .text => [DocElement.contentParagraph]
  | .table num_rows num_cols before_space =>
      (if before_space ≠ 0 then
        [DocElement.fillerParagraph (max (round1 (before_space / 2)) 0) 0
          (round1 (before_space / 2))]
      else []) ++ [DocElement.table num_rows num_cols]

/-- The elements emitted for a block list, in reading order. -/
def emit_blocks : List Block → List DocElement
  | [] => []
  | b :: bs => emit_block b ++ emit_blocks bs

/-- The full element sequence `make_page` (Layout.py, lines 184-251) emits into
the page's section: the per-block elements in reading order, then — when the
block list is non-empty and its last block is a table block — one trailing
filler paragraph.  That filler's format is set by
`reset_paragraph_format(p, Pt(1.0))`, an external collaborator not among the
analysed sources; modelled from the spec: a near-zero-height filler paragraph,
line height 1 pt, no extra spacing. -/
def make_page_elements (L : Layout) : List DocElement :=
  emit_blocks L.blocks ++
    (if (L.blocks.getLast?.map Block.is_table_block).getD false then
      [DocElement.fillerParagraph 0 0 1]
    else [])

/-- A trivial cleaning collaborator that keeps every block and reports no
change (used to instantiate the `clean`-parameterized theorems at concrete
inputs). -/
def keepBlocks : Bbox → List Block → List Block × Bool := fun _ bs => (bs, false)

/-- A trivial cleaning collaborator that keeps every rectangle and reports no
change. -/
def keepRects : Bbox → List Bbox → List Bbox × Bool := fun _ rs => (rs, false)

set_option maxHeartbeats 1000000 in
/-- C1: the code's `page_margin` coincides with the spec's reference
definition on every input. -/
theorem page_margin_eq_spec (width height : ℚ) (blocks rects : List Bbox) :
    page_margin width height blocks rects = page_margin_spec width height blocks rects := by
  unfold page_margin page_margin_spec
  by_cases h : (blocks.isEmpty && rects.isEmpty) = true
  · rw [if_pos h, if_pos h]
  · rw [if_neg h, if_neg h]
    generalize listMin (List.map Bbox.x0 (blocks ++ rects)) = a
    generalize listMax (List.map Bbox.x1 (blocks ++ rects)) = b
    generalize listMin (List.map Bbox.y0 (blocks ++ rects)) = c
    generalize listMax (List.map Bbox.y1 (blocks ++ rects)) = d
    simp only [Prod.mk.injEq]
    refine ⟨?_, ?_, ?_, ?_⟩ <;> simp only [min_def, max_def] <;> split_ifs <;> linarith

set_option maxHeartbeats 1000000 in
/-- Helper: componentwise bounds of `page_margin`, shared by the bound and
invariant theorems below. -/
lemma page_margin_bounds_aux (width height : ℚ) (blocks rects : List Bbox) :
    (0 ≤ (page_margin width height blocks rects).1 ∧
      (page_margin width height blocks rects).1 ≤ ITP) ∧
    (0 ≤ (page_margin width height blocks rects).2.1 ∧
      (page_margin width height blocks rects).2.1 ≤ ITP) ∧
    (0 ≤ (page_margin width height blocks rects).2.2.1 ∧
      (page_margin width height blocks rects).2.2.1 ≤ ITP) ∧
    (0 ≤ (page_margin width height blocks rects).2.2.2 ∧
      (page_margin width height blocks rects).2.2.2 ≤ ITP) ∧
    (page_margin width height blocks rects).2.1 ≤ (page_margin width height blocks rects).1 := by
  unfold page_margin
  by_cases h : (blocks.isEmpty && rects.isEmpty) = true
  · rw [if_pos h]; norm_num [ITP]
  · rw [if_neg h]
    generalize listMin (List.map Bbox.x0 (blocks ++ rects)) = a
    generalize listMax (List.map Bbox.x1 (blocks ++ rects)) = b
    generalize listMin (List.map Bbox.y0 (blocks ++ rects)) = c
    generalize listMax (List.map Bbox.y1 (blocks ++ rects)) = d
    dsimp only
    refine ⟨⟨?_, ?_⟩, ⟨?_, ?_⟩, ⟨?_, ?_⟩, ⟨?_, ?_⟩, ?_⟩ <;>
      simp only [min_def, max_def, ITP] <;> split_ifs <;> linarith

/-- C2: for every page width/height and every finite set of block and shape
bounding boxes (including the empty set), each of the four components of the
margin returned by `page_margin` lies in the closed interval `[0, ITP]`, and
the right component is at most the left component. -/
theorem page_margin_component_bounds (width height : ℚ) (blocks rects : List Bbox) :
    (0 ≤ (page_margin width height blocks rects).1 ∧
      (page_margin width height blocks rects).1 ≤ ITP) ∧
    (0 ≤ (page_margin width height blocks rects).2.1 ∧
      (page_margin width height blocks rects).2.1 ≤ ITP) ∧
    (0 ≤ (page_margin width height blocks rects).2.2.1 ∧
      (page_margin width height blocks rects).2.2.1 ≤ ITP) ∧
    (0 ≤ (page_margin width height blocks rects).2.2.2 ∧
      (page_margin width height blocks rects).2.2.2 ≤ ITP) ∧
    (page_margin width height blocks rects).2.1 ≤ (page_margin width height blocks rects).1 :=
  page_margin_bounds_aux width height blocks rects

/-- C3, counterexample: on an empty 100 × 100 page (no blocks, no shapes),
`clean` sets the margin to the one-inch default `(72, 72, 72, 72)`, and its
left and right components sum to `144 > 100 = width`, so the claimed
`left + right ≤ width` part of the invariant fails. -/
theorem clean_margin_sum_counterexample :
    ((Layout.init ⟨some 100, some 100, some [], []⟩).clean keepBlocks keepRects).1.margin
        = some (72, 72, 72, 72) ∧
    ¬ ((72 : ℚ) + 72 ≤ (Layout.init ⟨some 100, some 100, some [], []⟩).width) := by
  constructor
  · rfl
  · simp [Layout.init]
    norm_num

/-- C3 (amended): the margin is unset (`none`) from construction, and any
`clean` call sets it to a value each of whose components is nonnegative with
the right component at most the left; the sum bounds `left + right ≤ width`
and `top + bottom ≤ height` hold provided the page is at least two inches wide
and tall (they fail on smaller empty pages, where the one-inch default
exceeds them). -/
theorem layout_margin_invariant
    (cleanBlocks : Bbox → List Block → List Block × Bool)
    (cleanRects : Bbox → List Bbox → List Bbox × Bool)
    (raw : RawPage) (L : Layout) :
    (Layout.init raw).margin = none ∧
    ∃ m, (L.clean cleanBlocks cleanRects).1.margin = some m ∧
      0 ≤ m.1 ∧ 0 ≤ m.2.1 ∧ 0 ≤ m.2.2.1 ∧ 0 ≤ m.2.2.2 ∧ m.2.1 ≤ m.1 ∧
      (2 * ITP ≤ L.width → m.1 + m.2.1 ≤ L.width) ∧
      (2 * ITP ≤ L.height → m.2.2.1 + m.2.2.2 ≤ L.height) := by
  constructor
  · rfl
  · refine ⟨_, rfl, ?_⟩
    have hb := page_margin_bounds_aux L.width L.height
      (((cleanBlocks ⟨0, 0, L.width, L.height⟩ L.blocks).1).map Block.bbox)
      ((cleanRects ⟨0, 0, L.width, L.height⟩ L.rects).1)
    obtain ⟨⟨h1, h2⟩, ⟨h3, h4⟩, ⟨h5, h6⟩, ⟨h7, h8⟩, h9⟩ := hb
    exact ⟨h1, h3, h5, h7, h9, fun hw => by linarith, fun hh => by linarith⟩

/-- Helper: `emit_block` never yields an empty element list. -/
lemma emit_block_ne_nil (b : Block) : emit_block b ≠ [] := by
  unfold emit_block
  cases b.data with
  | text => simp
  | table r c s => simp

/-- Helper: `emit_blocks` never yields an empty element list on a non-empty
block list. -/
lemma emit_blocks_ne_nil (b : Block) (bs : List Block) :
    emit_blocks (b :: bs) ≠ [] := by
  show emit_block b ++ emit_blocks bs ≠ []
  exact List.append_ne_nil_of_left_ne_nil (emit_block_ne_nil b) _

/-- Helper: `emit_blocks` distributes over list append. -/
lemma emit_blocks_append (l₁ l₂ : List Block) :
    emit_blocks (l₁ ++ l₂) = emit_blocks l₁ ++ emit_blocks l₂ := by
  induction l₁ with
  | nil => rfl
  | cons b bs ih =>
    show emit_block b ++ emit_blocks (bs ++ l₂) = (emit_block b ++ emit_blocks bs) ++ emit_blocks l₂
    rw [ih, List.append_assoc]

/-- Helper: the last emitted element of a block list comes from its last
block. -/
lemma emit_blocks_getLast (bs : List Block) (b : Block) (h : bs.getLast? = some b) :
    (emit_blocks bs).getLast? = (emit_block b).getLast? := by
  induction bs with
  | nil => simp at h
  | cons x xs ih =>
    cases xs with
    | nil =>
      simp at h
      subst h
      show (emit_block x ++ emit_blocks []).getLast? = _
      simp [emit_blocks]
    | cons y ys =>
      have h2 : (y :: ys).getLast? = some b := by
        rwa [List.getLast?_cons_cons] at h
      show (emit_block x ++ emit_blocks (y :: ys)).getLast? = _
      rw [List.getLast?_append_of_ne_nil _ (emit_blocks_ne_nil y ys)]
      exact ih h2

/-- C4: when the page's block list is non-empty and its last block is a table
block, the element sequence emitted by `make_page` ends with the 1 pt trailing
filler paragraph (a non-table element); when the last block is a text block,
the emitted sequence is exactly the per-block elements — no trailing filler is
appended — and ends with that block's own paragraph. -/
theorem make_page_trailing_guard (L : Layout) (b : Block)
    (hlast : L.blocks.getLast? = some b) :
    (b.is_table_block = true →
      (make_page_elements L).getLast? = some (DocElement.fillerParagraph 0 0 1)) ∧
    (b.is_text_block = true →
      make_page_elements L = emit_blocks L.blocks ∧
      (make_page_elements L).getLast? = some DocElement.contentParagraph) := by
  constructor
  · intro ht
    unfold make_page_elements
    rw [hlast]
    simp [ht, List.getLast?_concat]
  · intro ht
    have hdata : b.data = BlockData.text := by
      cases hb : b.data with
      | text => rfl
      | table r c s => rw [Block.is_text_block, hb] at ht; exact absurd ht (by simp)
    have htab : b.is_table_block = false := by
      rw [Block.is_table_block, hdata]
    have hbody : make_page_elements L = emit_blocks L.blocks := by
      unfold make_page_elements
      rw [hlast]
      simp [htab]
    refine ⟨hbody, ?_⟩
    rw [hbody, emit_blocks_getLast L.blocks b hlast, emit_block, hdata]
    rfl

/-- C4, witness: on a concrete page ending in a table block the emitted
sequence ends with the 1 pt filler paragraph, and on a concrete page ending in
a text block no trailing filler is appended. -/
theorem make_page_trailing_guard_witness :
    (make_page_elements
        ⟨600, 800, [⟨⟨0, 0, 1, 1⟩, BlockData.text⟩, ⟨⟨0, 2, 1, 3⟩, BlockData.table 2 2 0⟩],
          [], none⟩).getLast? = some (DocElement.fillerParagraph 0 0 1) ∧
    (make_page_elements ⟨600, 800, [⟨⟨0, 0, 1, 1⟩, BlockData.text⟩], [], none⟩ =
        emit_blocks [⟨⟨0, 0, 1, 1⟩, BlockData.text⟩] ∧
      (make_page_elements ⟨600, 800, [⟨⟨0, 0, 1, 1⟩, BlockData.text⟩], [], none⟩).getLast? =
        some DocElement.contentParagraph) :=
  ⟨(make_page_trailing_guard
      ⟨600, 800, [⟨⟨0, 0, 1, 1⟩, BlockData.text⟩, ⟨⟨0, 2, 1, 3⟩, BlockData.table 2 2 0⟩],
        [], none⟩
      ⟨⟨0, 2, 1, 3⟩, BlockData.table 2 2 0⟩ rfl).1 rfl,
   (make_page_trailing_guard ⟨600, 800, [⟨⟨0, 0, 1, 1⟩, BlockData.text⟩], [], none⟩
      ⟨⟨0, 0, 1, 1⟩, BlockData.text⟩ rfl).2 rfl⟩

/-- C5, counterexample: a table block with `before_space = -4 ≤ 0` still makes
`make_page` emit a leading filler paragraph before the table — the code tests
`before_space` for truthiness (nonzero), not positivity — with the unclamped
negative value `-2` as line spacing.  This contradicts the claim that no
filler is emitted when `beforeSpace ≤ 0`. -/
theorem make_page_before_space_counterexample :
    ((-4 : ℚ) ≤ 0) ∧
    make_page_elements
        ⟨600, 800, [⟨⟨10, 10, 100, 100⟩, BlockData.table 2 2 (-4)⟩], [], none⟩ =
      [DocElement.fillerParagraph 0 0 (-2), DocElement.table 2 2,
       DocElement.fillerParagraph 0 0 1] := by
  refine ⟨by norm_num, ?_⟩
  have h : round1 ((-4 : ℚ) / 2) = -2 := by norm_num [round1, roundHalfEven]
  have h4 : ((-4 : ℚ) ≠ 0) := by norm_num
  have hmax : max (-2 : ℚ) 0 = 0 := by norm_num
  simp [make_page_elements, emit_blocks, emit_block, Block.is_table_block, h, h4, hmax]

/-- C5 (amended): in `make_page`, every table block with `before_space ≠ 0`
(the code's truthiness test, so negative values included) is immediately
preceded by one filler paragraph whose before-space is `round(beforeSpace/2, 1)`
clamped to `≥ 0`, whose after-space is zero, and whose line-spacing is
`round(beforeSpace/2, 1)` without clamping; a table block with
`before_space = 0` gets no leading filler. -/
theorem make_page_table_before_space (L : Layout) (pre post : List Block)
    (bb : Bbox) (r c : ℕ) (s : ℚ)
    (hsplit : L.blocks = pre ++ ⟨bb, BlockData.table r c s⟩ :: post) :
    make_page_elements L =
      emit_blocks pre ++
        (if s = 0 then [DocElement.table r c]
         else [DocElement.fillerParagraph (max (round1 (s / 2)) 0) 0 (round1 (s / 2)),
               DocElement.table r c]) ++
        (emit_blocks post ++
          (if (L.blocks.getLast?.map Block.is_table_block).getD false then
            [DocElement.fillerParagraph 0 0 1]
          else [])) := by
  have hblk : emit_block ⟨bb, BlockData.table r c s⟩ =
      (if s = 0 then [DocElement.table r c]
       else [DocElement.fillerParagraph (max (round1 (s / 2)) 0) 0 (round1 (s / 2)),
             DocElement.table r c]) := by
    by_cases hs : s = 0
    · simp [emit_block, hs]
    · simp [emit_block, hs]
  unfold make_page_elements
  rw [hsplit, emit_blocks_append]
  show emit_blocks pre ++ (emit_block _ ++ emit_blocks post) ++ _ = _
  rw [hblk, ← hsplit]
  simp [List.append_assoc]

/-- C5, witness: a single table block with `before_space = 6` yields the filler
(with before-space and line-spacing `round(3, 1) = 3`) followed by the table. -/
theorem make_page_table_before_space_witness :
    make_page_elements ⟨600, 800, [⟨⟨0, 0, 1, 1⟩, BlockData.table 1 2 6⟩], [], none⟩ =
      emit_blocks [] ++
        (if (6 : ℚ) = 0 then [DocElement.table 1 2]
         else [DocElement.fillerParagraph (max (round1 ((6 : ℚ) / 2)) 0) 0
                 (round1 ((6 : ℚ) / 2)),
               DocElement.table 1 2]) ++
        (emit_blocks [] ++
          (if (([⟨⟨0, 0, 1, 1⟩, BlockData.table 1 2 6⟩] :
                List Block).getLast?.map Block.is_table_block).getD false then
            [DocElement.fillerParagraph 0 0 1]
          else [])) :=
  make_page_table_before_space
    ⟨600, 800, [⟨⟨0, 0, 1, 1⟩, BlockData.table 1 2 6⟩], [], none⟩ [] []
    ⟨0, 0, 1, 1⟩ 1 2 6 rfl

/-- C6, counterexample: a table block with `rows = 0` and `cols = 0` is not
skipped during `make_page`: a table element with those dimensions is emitted
(followed here by the trailing filler), contradicting the claim that no table
element is emitted for such a block. -/
theorem make_page_zero_table_counterexample :
    make_page_elements
        ⟨600, 800, [⟨⟨10, 10, 100, 100⟩, BlockData.table 0 0 0⟩], [], none⟩ =
      [DocElement.table 0 0, DocElement.fillerParagraph 0 0 1] := by
  simp [make_page_elements, emit_blocks, emit_block, Block.is_table_block]

/-- C6 (amended): a table block with `rows = 0` or `cols = 0` is not skipped:
`make_page` has no such check and emits a table element with exactly those
dimensions in its place, while the elements of all following blocks are still
emitted after it — the page's assembly proceeds, it does not abort. -/
theorem make_page_zero_table_emitted (L : Layout) (pre post : List Block)
    (bb : Bbox) (r c : ℕ) (s : ℚ) (_hrc : r = 0 ∨ c = 0)
    (hsplit : L.blocks = pre ++ ⟨bb, BlockData.table r c s⟩ :: post) :
    make_page_elements L =
      (emit_blocks pre ++
        (if s ≠ 0 then
          [DocElement.fillerParagraph (max (round1 (s / 2)) 0) 0 (round1 (s / 2))]
        else [])) ++
      DocElement.table r c ::
        (emit_blocks post ++
          (if (L.blocks.getLast?.map Block.is_table_block).getD false then
            [DocElement.fillerParagraph 0 0 1]
          else [])) := by
  unfold make_page_elements
  rw [hsplit, emit_blocks_append]
  show emit_blocks pre ++ (emit_block _ ++ emit_blocks post) ++ _ = _
  rw [emit_block, ← hsplit]
  simp [List.append_assoc]

/-- C6, witness: a `0 × 3` table block followed by a text block — the table
element is emitted and the text block's paragraph still follows it. -/
theorem make_page_zero_table_emitted_witness :
    make_page_elements
        ⟨600, 800,
          [⟨⟨10, 10, 100, 100⟩, BlockData.table 0 3 0⟩, ⟨⟨1, 1, 2, 2⟩, BlockData.text⟩],
          [], none⟩ =
      (emit_blocks [] ++
        (if (0 : ℚ) ≠ 0 then
          [DocElement.fillerParagraph (max (round1 ((0 : ℚ) / 2)) 0) 0 (round1 ((0 : ℚ) / 2))]
        else [])) ++
      DocElement.table 0 3 ::
        (emit_blocks [⟨⟨1, 1, 2, 2⟩, BlockData.text⟩] ++
          (if (([⟨⟨10, 10, 100, 100⟩, BlockData.table 0 3 0⟩, ⟨⟨1, 1, 2, 2⟩, BlockData.text⟩] :
                List Block).getLast?.map Block.is_table_block).getD false then
            [DocElement.fillerParagraph 0 0 1]
          else [])) :=
  make_page_zero_table_emitted
    ⟨600, 800,
      [⟨⟨10, 10, 100, 100⟩, BlockData.table 0 3 0⟩, ⟨⟨1, 1, 2, 2⟩, BlockData.text⟩], [], none⟩
    [] [⟨⟨1, 1, 2, 2⟩, BlockData.text⟩] ⟨10, 10, 100, 100⟩ 0 3 0 (Or.inl rfl) rfl

/-- C7, counterexample: the snapshot of a concrete layout state has the key
list `[width, height, margin, blocks, rects]` — the shape snapshot is stored
under the key `rects`, and no key `shapes` exists, contradicting the claimed
key set `{width, height, margin, blocks, shapes}`. -/
theorem store_keys_counterexample :
    ((Layout.init ⟨some 600, some 800, some [], []⟩).store.map Prod.fst =
      ["width", "height", "margin", "blocks", "rects"]) ∧
    "shapes" ∉ (Layout.init ⟨some 600, some 800, some [], []⟩).store.map Prod.fst := by
  refine ⟨rfl, ?_⟩
  simp [Layout.store, Layout.init]

/-- C7 (amended): for every layout state, `store()` returns a mapping with
exactly the keys `width`, `height`, `margin`, `blocks` and `rects` (the shape
snapshot is keyed `rects`, not `shapes`), in that order, where `width` and
`height` are the page dimensions, `margin` is the optional four-component
margin, and `blocks`/`rects` are the collection snapshots. -/
theorem store_fields (L : Layout) :
    L.store.map Prod.fst = ["width", "height", "margin", "blocks", "rects"] ∧
    L.store.lookup "width" = some (StoreValue.num L.width) ∧
    L.store.lookup "height" = some (StoreValue.num L.height) ∧
    L.store.lookup "margin" = some (StoreValue.marginVal L.margin) ∧
    L.store.lookup "blocks" = some (StoreValue.blockList L.blocks) ∧
    L.store.lookup "rects" = some (StoreValue.rectList L.rects) := by
  refine ⟨rfl, ?_, ?_, ?_, ?_, ?_⟩ <;> rfl

/-- C8: reading `bbox_raw` while the margin is still unset returns the
degenerate box `(0, 0, 0, 0)` (no error, and not the full page rectangle);
once the margin is set it returns `(left, top, width - right, height - bottom)`. -/
theorem bbox_raw_cases (L : Layout) :
    (L.margin = none → L.bbox_raw = (0, 0, 0, 0)) ∧
    (∀ left right top bottom, L.margin = some (left, right, top, bottom) →
      L.bbox_raw = (left, top, L.width - right, L.height - bottom)) := by
  constructor
  · intro h
    simp [Layout.bbox_raw, h]
  · intro l r t b h
    simp [Layout.bbox_raw, h]

/-- C8, witness: a freshly constructed layout yields `(0, 0, 0, 0)`, and a
layout with margin `(10, 20, 30, 40)` on a `600 × 800` page yields
`(10, 30, 600 - 20, 800 - 40)`. -/
theorem bbox_raw_cases_witness :
    Layout.bbox_raw ⟨600, 800, [], [], none⟩ = (0, 0, 0, 0) ∧
    Layout.bbox_raw ⟨600, 800, [], [], some (10, 20, 30, 40)⟩ =
      (10, 30, 600 - 20, 800 - 40) :=
  ⟨(bbox_raw_cases ⟨600, 800, [], [], none⟩).1 rfl,
   (bbox_raw_cases ⟨600, 800, [], [], some (10, 20, 30, 40)⟩).2 10 20 30 40 rfl⟩

/-- C9: immediately after construction the rectangle/shape collection is
empty, whatever rectangle entries the raw dictionary contains and whatever its
other fields are. -/
theorem init_rects_empty (raw : RawPage) : (Layout.init raw).rects = [] := rfl

/-- C10: `parse_implicit_tables` with the margin still unset fails — the
margin unpacking raises (`Except.error`) instead of returning a
no-table-detected result; with the margin set the unpacking succeeds and the
table constructor is invoked on the horizontal bounds `(left, width - right)`. -/
theorem parse_implicit_tables_margin (implicit_tables : ℚ → ℚ → List Block)
    (L : Layout) :
    (L.margin = none →
      L.parse_implicit_tables implicit_tables =
        Except.error "cannot unpack non-iterable NoneType object") ∧
    (∀ left right top bottom, L.margin = some (left, right, top, bottom) →
      L.parse_implicit_tables implicit_tables =
        Except.ok (!(implicit_tables left (L.width - right)).isEmpty)) := by
  constructor
  · intro h
    simp [Layout.parse_implicit_tables, h]
  · intro l r t b h
    simp [Layout.parse_implicit_tables, h]

/-- C10, witness: with the margin unset the call errors; with margin
`(30, 40, 50, 60)` on a 600-wide page the constructor sees the bounds
`(30, 600 - 40)` and one table is reported. -/
theorem parse_implicit_tables_margin_witness :
    Layout.parse_implicit_tables (fun _ _ => []) ⟨600, 800, [], [], none⟩ =
      Except.error "cannot unpack non-iterable NoneType object" ∧
    Layout.parse_implicit_tables
        (fun x0 x1 => [⟨⟨x0, 0, x1, 1⟩, BlockData.text⟩])
        ⟨600, 800, [], [], some (30, 40, 50, 60)⟩ =
      Except.ok true :=
  ⟨(parse_implicit_tables_margin (fun _ _ => []) ⟨600, 800, [], [], none⟩).1 rfl,
   by
    rw [(parse_implicit_tables_margin (fun x0 x1 => [⟨⟨x0, 0, x1, 1⟩, BlockData.text⟩])
      ⟨600, 800, [], [], some (30, 40, 50, 60)⟩).2 30 40 50 60 rfl]
    rfl⟩

/-- C3, witness: on an empty 200 × 200 page (at least two inches in each
dimension) the invariant holds concretely: the margin is unset after
construction, and after `clean` it is the one-inch default with
`left + right = 144 ≤ 200` and `top + bottom = 144 ≤ 200`. -/
theorem layout_margin_invariant_witness :
    (Layout.init ⟨some 200, some 200, some [], []⟩).margin = none ∧
    2 * ITP ≤ (200 : ℚ) ∧
    ((⟨200, 200, [], [], none⟩ : Layout).clean keepBlocks keepRects).1.margin =
      some (72, 72, 72, 72) ∧
    (72 : ℚ) + 72 ≤ 200 ∧ (72 : ℚ) + 72 ≤ 200 := by
  obtain ⟨h1, m, hm, _, _, _, _, _, hw, hh⟩ :=
    layout_margin_invariant keepBlocks keepRects ⟨some 200, some 200, some [], []⟩
      ⟨200, 200, [], [], none⟩
  have hm72 : m = ((72 : ℚ), (72 : ℚ), (72 : ℚ), (72 : ℚ)) := by
    have hsome : some m = some ((72 : ℚ), (72 : ℚ), (72 : ℚ), (72 : ℚ)) := by
      rw [← hm]; rfl
    exact Option.some.inj hsome
  have hitp : (2 : ℚ) * ITP ≤ 200 := by norm_num [ITP]
  have hw200 := hw hitp
  have hh200 := hh hitp
  rw [hm72] at hw200 hh200
  exact ⟨h1, hitp, by rw [hm, hm72], hw200, hh200⟩
